import Mathlib

/-!
Verification of the orbital-mechanics engine (`services/orbitalMechanics.ts`)
of the AIMS backend.

The TypeScript source computes with IEEE doubles and transcendental library
functions; here the arithmetic is embedded over `ℝ` (an exact-real
idealization of the double computations).  The source's unbounded
`while`-loops are embedded as fuel-indexed recursions returning `Option ℝ`:
`none` means the loop is still running after the given number of iterations.
Ambient effects are made explicit: `Date.now()` becomes a clock-reading
stream `now : ℕ → ℝ` (the source calls `Date.now()` once per loop
iteration, so reading `i` is the value observed at iteration `i`).

For the two claims that hinge on untyped JavaScript runtime behaviour
(NaN propagation at `e = 1`, and mission configs whose `propulsionType`
lies outside the TypeScript union) there is a second, `Js`-suffixed layer:
there `Option ℝ` tracks finiteness (`none` models a non-finite double, as
produced by `0/0`) and `propulsionType` is a `String`, exactly as at the
JavaScript runtime level.
-/

namespace AIMS

/-- 3-vectors of reals, modelling the source's `[number, number, number]`. -/
abbrev Vec3 : Type := ℝ × ℝ × ℝ

/- Physical constants from the source's `Constants` object. -/
namespace Constants

/-- Astronomical unit in km. -/
noncomputable def AU : ℝ := 149597870.7

/-- Gravitational constant in m³/kg/s². -/
noncomputable def G : ℝ := 6.67430e-11

/-- Solar mass in kg. -/
noncomputable def SOLAR_MASS : ℝ := 1.989e30

/-- Earth mass in kg. -/
noncomputable def EARTH_MASS : ℝ := 5.972e24

/-- Sun gravitational parameter in m³/s². -/
noncomputable def GM_SUN : ℝ := 1.327e20

/-- Earth gravitational parameter in m³/s². -/
noncomputable def GM_EARTH : ℝ := 3.986e14

/-- Speed of light in m/s. -/
noncomputable def SPEED_OF_LIGHT : ℝ := 299792458

/-- Seconds per day. -/
noncomputable def DAY_SECONDS : ℝ := 86400

/-- Seconds per (Julian) year. -/
noncomputable def YEAR_SECONDS : ℝ := 365.25 * 86400

end Constants

/-- Keplerian orbital elements, from `types/index.ts` (`OrbitalElements`). -/
structure OrbitalElements where
  a : ℝ
  e : ℝ
  i : ℝ
  omega : ℝ
  Omega : ℝ
  M : ℝ
  epoch : ℝ

/-- 3I/ATLAS orbital elements (`ATLAS_3I_ELEMENTS` in the source). -/
noncomputable def ATLAS_3I_ELEMENTS : OrbitalElements :=
  ⟨-2.1, 6.141, 175.1, 310.4, 87.2, 0, 2460146.5⟩

/-- `PLANETARY_ELEMENTS.Mercury`. -/
noncomputable def MercuryElements : OrbitalElements :=
  ⟨0.387, 0.206, 7.0, 29.1, 48.3, 0, 2451545.0⟩

/-- `PLANETARY_ELEMENTS.Venus`. -/
noncomputable def VenusElements : OrbitalElements :=
  ⟨0.723, 0.007, 3.4, 54.9, 76.7, 0, 2451545.0⟩

/-- `PLANETARY_ELEMENTS.Earth`. -/
noncomputable def EarthElements : OrbitalElements :=
  ⟨1.000, 0.017, 0.0, 114.2, 0.0, 0, 2451545.0⟩

/-- `PLANETARY_ELEMENTS.Mars`. -/
noncomputable def MarsElements : OrbitalElements :=
  ⟨1.524, 0.093, 1.9, 286.5, 49.6, 0, 2451545.0⟩

/-- `PLANETARY_ELEMENTS.Jupiter`. -/
noncomputable def JupiterElements : OrbitalElements :=
  ⟨5.204, 0.049, 1.3, 273.9, 100.5, 0, 2451545.0⟩

/-- The `PLANETARY_ELEMENTS` record, as a name-keyed lookup. -/
noncomputable def PLANETARY_ELEMENTS (name : String) : Option OrbitalElements :=
  if name = "Mercury" then some MercuryElements
  else if name = "Venus" then some VenusElements
  else if name = "Earth" then some EarthElements
  else if name = "Mars" then some MarsElements
  else if name = "Jupiter" then some JupiterElements
  else none

/-- `OrbitalMechanics.degToRad`. -/
noncomputable def degToRad (degrees : ℝ) : ℝ := degrees * (Real.pi / 180)

/-- `OrbitalMechanics.radToDeg`. -/
noncomputable def radToDeg (radians : ℝ) : ℝ := radians * (180 / Real.pi)

/-- `OrbitalMechanics.meanMotion`.  The source's default argument
`centralBodyMass = Constants.SOLAR_MASS` is passed explicitly at the call
sites below. -/
noncomputable def meanMotion (semiMajorAxis centralBodyMass : ℝ) : ℝ :=
  let auInMeters := semiMajorAxis * Constants.AU * 1000
  Real.sqrt (Constants.G * centralBodyMass / auInMeters ^ 3)

/-- One Newton–Raphson correction `deltaE = f/df` of the elliptical Kepler
loop body: `f = E - e sin E - M`, `df = 1 - e cos E`. -/
noncomputable def kepDeltaE (meanAnomaly eccentricity E : ℝ) : ℝ :=
  (E - eccentricity * Real.sin E - meanAnomaly) / (1 - eccentricity * Real.cos E)

/-- The `while (Math.abs(deltaE) > tolerance)` loop of
`OrbitalMechanics.solveKeplerEquation`, indexed by fuel.  The source loop has
no iteration bound; `none` means the loop is still running after `fuel`
checks of its condition. -/
noncomputable def solveKeplerAux (meanAnomaly eccentricity tolerance : ℝ) :
    ℕ → ℝ → ℝ → Option ℝ
  | 0, _, _ => none
  | fuel + 1, E, deltaE =>
    if |deltaE| ≤ tolerance then some E
    else
      let d := kepDeltaE meanAnomaly eccentricity E
      solveKeplerAux meanAnomaly eccentricity tolerance fuel (E - d) d

/-- `OrbitalMechanics.solveKeplerEquation` with its default tolerance
`1e-8`: initial guess `E = meanAnomaly`, initial `deltaE = 1`. -/
noncomputable def solveKeplerEquation (meanAnomaly eccentricity : ℝ) (fuel : ℕ) :
    Option ℝ :=
  solveKeplerAux meanAnomaly eccentricity 1e-8 fuel meanAnomaly 1

/-- One Newton–Raphson correction `deltaH = f/df` of the hyperbolic Kepler
loop body: `f = e sinh H - H - M`, `df = e cosh H - 1`. -/
noncomputable def hypDeltaH (M eccentricity H : ℝ) : ℝ :=
  (eccentricity * Real.sinh H - H - M) / (eccentricity * Real.cosh H - 1)

/-- The `while (Math.abs(deltaH) > tolerance)` loop of
`OrbitalMechanics.solveHyperbolicKepler`, indexed by fuel. -/
noncomputable def solveHyperbolicKeplerAux (M eccentricity tolerance : ℝ) :
    ℕ → ℝ → ℝ → Option ℝ
  | 0, _, _ => none
  | fuel + 1, H, deltaH =>
    if |deltaH| ≤ tolerance then some H
    else
      let d := hypDeltaH M eccentricity H
      solveHyperbolicKeplerAux M eccentricity tolerance fuel (H - d) d

/-- `OrbitalMechanics.solveHyperbolicKepler` with its default tolerance
`1e-8`: initial guess `H = M`, initial `deltaH = 1`. -/
noncomputable def solveHyperbolicKepler (M eccentricity : ℝ) (fuel : ℕ) :
    Option ℝ :=
  solveHyperbolicKeplerAux M eccentricity 1e-8 fuel M 1

/-- JavaScript's `Math.atan2` (signed-zero behaviour ignored). -/
noncomputable def atan2 (y x : ℝ) : ℝ :=
  if 0 < x then Real.arctan (y / x)
  else if x < 0 then
    (if 0 ≤ y then Real.arctan (y / x) + Real.pi else Real.arctan (y / x) - Real.pi)
  else
    (if 0 < y then Real.pi / 2 else if y < 0 then -(Real.pi / 2) else 0)

/-- `OrbitalMechanics.calculateTrueAnomaly`. -/
noncomputable def calculateTrueAnomaly (E e : ℝ) : ℝ :=
  2 * atan2 (Real.sqrt (1 + e) * Real.sin (E / 2))
            (Real.sqrt (1 - e) * Real.cos (E / 2))

/-- `OrbitalMechanics.calculateTrueAnomalyHyperbolic` (exact-real level). -/
noncomputable def calculateTrueAnomalyHyperbolic (H e : ℝ) : ℝ :=
  2 * Real.arctan (Real.sqrt ((e + 1) / (e - 1)) * Real.tanh (H / 2))

/-- `OrbitalMechanics.orbitalStateVectors`: perifocal-plane position and
velocity `((x, y), (vx, vy))`. -/
noncomputable def orbitalStateVectors (elements : OrbitalElements) (nu : ℝ) :
    (ℝ × ℝ) × (ℝ × ℝ) :=
  let r := |elements.a| * (1 - elements.e * elements.e) /
    (1 + elements.e * Real.cos nu)
  let x := r * Real.cos nu
  let y := r * Real.sin nu
  let h := Real.sqrt (Constants.GM_SUN * |elements.a| *
    (1 - elements.e * elements.e))
  let vx := -h * Real.sin nu / r
  let vy := h * (elements.e + Real.cos nu) / r
  ((x, y), (vx, vy))

/-- `OrbitalMechanics.transformToEcliptic`.  The `z` argument is accepted
and ignored exactly as in the source (only `x` and `y` enter the rotated
coordinates). -/
noncomputable def transformToEcliptic (x y z : ℝ) (elements : OrbitalElements) :
    Vec3 :=
  let iRad := degToRad elements.i
  let omegaRad := degToRad elements.omega
  let OmegaRad := degToRad elements.Omega
  let cosOmega := Real.cos omegaRad
  let sinOmega := Real.sin omegaRad
  let cosI := Real.cos iRad
  let sinI := Real.sin iRad
  let cosCapitalOmega := Real.cos OmegaRad
  let sinCapitalOmega := Real.sin OmegaRad
  let X := (cosCapitalOmega * cosOmega - sinCapitalOmega * sinOmega * cosI) * x +
    (-cosCapitalOmega * sinOmega - sinCapitalOmega * cosOmega * cosI) * y
  let Y := (sinCapitalOmega * cosOmega + cosCapitalOmega * sinOmega * cosI) * x +
    (-sinCapitalOmega * sinOmega + cosCapitalOmega * cosOmega * cosI) * y
  let Z := (sinOmega * sinI) * x + (cosOmega * sinI) * y
  (X, Y, Z)

/-- The tail shared by both branches of
`OrbitalMechanics.calculatePositionAtTime`: perifocal state at true anomaly
`nu`, rotated to the ecliptic, position divided by `Constants.AU`
(the source's "convert to AU"), velocity divided by `1000`. -/
noncomputable def eclipticStateOf (elements : OrbitalElements) (nu : ℝ) :
    Vec3 × Vec3 :=
  let sv := orbitalStateVectors elements nu
  let p := transformToEcliptic sv.1.1 sv.1.2 0 elements
  let v := transformToEcliptic sv.2.1 sv.2.2 0 elements
  ((p.1 / Constants.AU, p.2.1 / Constants.AU, p.2.2 / Constants.AU),
   (v.1 / 1000, v.2.1 / 1000, v.2.2 / 1000))

/-- `OrbitalMechanics.calculatePositionAtTime`.  `fuel` bounds the embedded
Kepler loop; `none` means that loop would still be running after `fuel`
iterations. -/
noncomputable def calculatePositionAtTime (elements : OrbitalElements)
    (time : ℝ) (fuel : ℕ) : Option (Vec3 × Vec3) :=
  let dt := (time - elements.epoch) * Constants.DAY_SECONDS
  if elements.e < 1 then
    let n := meanMotion |elements.a| Constants.SOLAR_MASS
    let M := n * dt
    (solveKeplerEquation M elements.e fuel).map fun E =>
      eclipticStateOf elements (calculateTrueAnomaly E elements.e)
  else
    let n := Real.sqrt (Constants.GM_SUN /
      (|elements.a| * Constants.AU * 1000) ^ 3)
    let M := n * dt
    (solveHyperbolicKepler M elements.e fuel).map fun H =>
      eclipticStateOf elements (calculateTrueAnomalyHyperbolic H elements.e)

/-- `propulsionType` union from `types/index.ts` (`MissionConfig`). -/
inductive PropulsionType where
  | chemical
  | ion
  | nuclear
deriving DecidableEq

/-- `payload` item union from `types/index.ts`. -/
inductive PayloadItem where
  | camera
  | spectrometer
  | probe
deriving DecidableEq

/-- `trajectoryType` union from `types/index.ts`. -/
inductive TrajectoryType where
  | hohmann
  | biElliptic
  | gravityAssist
deriving DecidableEq

/-- `MissionConfig` from `types/index.ts`. -/
structure MissionConfig where
  launchWindow : String
  propulsionType : PropulsionType
  payload : List PayloadItem
  trajectoryType : Option TrajectoryType
  fuelCapacity : Option ℝ
  missionDuration : Option ℝ

/-- An `isp` / `thrust` entry of the `propulsionEfficiency` table inside
`calculateInterceptTrajectory`. -/
structure Propulsion where
  isp : ℝ
  thrust : ℝ

/-- The `propulsionEfficiency` table of `calculateInterceptTrajectory`. -/
noncomputable def propulsionEfficiency : PropulsionType → Propulsion
  | .chemical => ⟨450, 100000⟩
  | .ion => ⟨3000, 100⟩
  | .nuclear => ⟨900, 50000⟩

/-- The `propulsionMultiplier` table of `calculateInterceptProbability`. -/
noncomputable def propulsionMultiplier : PropulsionType → ℝ
  | .chemical => 0.9
  | .ion => 0.95
  | .nuclear => 0.85

/-- Euclidean magnitude as computed in `calculateDeltaV`
(`Math.sqrt(r[0]*r[0] + r[1]*r[1] + r[2]*r[2])`). -/
noncomputable def vecMag (v : Vec3) : ℝ :=
  Real.sqrt (v.1 * v.1 + v.2.1 * v.2.1 + v.2.2 * v.2.2)

/-- AU-vector to meters, as in `calculateInterceptTrajectory`
(`startPosition.map(x => x * Constants.AU * 1000)`). -/
noncomputable def toMeters (v : Vec3) : Vec3 :=
  (v.1 * Constants.AU * 1000, v.2.1 * Constants.AU * 1000,
   v.2.2 * Constants.AU * 1000)

/-- `OrbitalMechanics.calculateDeltaV`.  Its `timeOfFlight` parameter is
accepted and ignored exactly as in the source. -/
noncomputable def calculateDeltaV (r1 r2 : Vec3) (timeOfFlight : ℝ) : ℝ :=
  let r1Mag := vecMag r1
  let r2Mag := vecMag r2
  let a := (r1Mag + r2Mag) / 2
  let v1 := Real.sqrt (Constants.GM_SUN * (2 / r1Mag - 1 / a))
  let v2 := Real.sqrt (Constants.GM_SUN * (2 / r2Mag - 1 / a))
  let vCirc1 := Real.sqrt (Constants.GM_SUN / r1Mag)
  let vCirc2 := Real.sqrt (Constants.GM_SUN / r2Mag)
  let deltaV1 := |v1 - vCirc1|
  let deltaV2 := |v2 - vCirc2|
  deltaV1 + deltaV2

/-- `OrbitalMechanics.calculateFuelMass` (Tsiolkovsky rocket equation). -/
noncomputable def calculateFuelMass (deltaV isp dryMass : ℝ) : ℝ :=
  let ve := isp * 9.81
  let massRatio := Real.exp (deltaV / ve)
  dryMass * (massRatio - 1)

/-- The first two (propulsion-independent) adjustment stages of
`calculateInterceptProbability`: base `0.85`, then the delta-V and
flight-time factors. -/
noncomputable def probabilityBeforePropulsion (deltaV timeOfFlight : ℝ) : ℝ :=
  let base0 : ℝ := 0.85
  let base1 := if deltaV > 15000 then base0 * 0.7
    else if deltaV > 10000 then base0 * 0.85 else base0
  let flightTimeYears := timeOfFlight / Constants.YEAR_SECONDS
  if flightTimeYears > 2 then base1 * 0.8
  else if flightTimeYears > 1 then base1 * 0.9 else base1

/-- `OrbitalMechanics.calculateInterceptProbability`. -/
noncomputable def calculateInterceptProbability (deltaV timeOfFlight : ℝ)
    (config : MissionConfig) : ℝ :=
  max 0.1 (min 0.99 (probabilityBeforePropulsion deltaV timeOfFlight *
    propulsionMultiplier config.propulsionType))

/-- `TrajectoryPoint` from `types/index.ts`. -/
structure TrajectoryPoint where
  time : ℝ
  position : Vec3
  velocity : Vec3
  fuelMass : ℝ
  acceleration : Vec3

/-- `InterceptorTrajectory` from `types/index.ts`. -/
structure InterceptorTrajectory where
  points : List TrajectoryPoint
  totalDeltaV : ℝ
  totalFuelUsed : ℝ
  flightTime : ℝ
  interceptProbability : ℝ

/-- The point-construction loop (`for i = 0..100`) of
`calculateInterceptTrajectory`.  `r1`, `r2` are the endpoint positions in
meters, `fuelMass` the computed total fuel; `now i` is the value
`Date.now()` returns at iteration `i` (the source reads the ambient clock
inside the loop, once per point). -/
noncomputable def trajectoryPoints (r1 r2 : Vec3) (timeOfFlight fuelMass : ℝ)
    (now : ℕ → ℝ) : List TrajectoryPoint :=
  (List.range 101).map fun (idx : ℕ) =>
    let t : ℝ := (idx : ℝ) / 100
    ⟨now idx + t * timeOfFlight * 1000,
     ((r1.1 + t * (r2.1 - r1.1)) / Constants.AU / 1000,
      (r1.2.1 + t * (r2.2.1 - r1.2.1)) / Constants.AU / 1000,
      (r1.2.2 + t * (r2.2.2 - r1.2.2)) / Constants.AU / 1000),
     ((r2.1 - r1.1) / timeOfFlight / 1000,
      (r2.2.1 - r1.2.1) / timeOfFlight / 1000,
      (r2.2.2 - r1.2.2) / timeOfFlight / 1000),
     fuelMass * (1 - t),
     (0, 0, 0)⟩

/-- `OrbitalMechanics.calculateInterceptTrajectory` (typed level). -/
noncomputable def calculateInterceptTrajectory (startPosition targetPosition : Vec3)
    (timeOfFlight : ℝ) (config : MissionConfig) (now : ℕ → ℝ) :
    InterceptorTrajectory :=
  let r1 := toMeters startPosition
  let r2 := toMeters targetPosition
  let propulsion := propulsionEfficiency config.propulsionType
  let totalDeltaV := calculateDeltaV r1 r2 timeOfFlight
  let fuelMass := calculateFuelMass totalDeltaV propulsion.isp 1000
  ⟨trajectoryPoints r1 r2 timeOfFlight fuelMass now,
   totalDeltaV, fuelMass, timeOfFlight,
   calculateInterceptProbability totalDeltaV timeOfFlight config⟩

/-- The propulsion factor table as written in the spec
(`{chemical: 0.9, ion: 0.95, nuclear: 0.85}`). -/
noncomputable def propulsionFactorSpec : PropulsionType → ℝ
  | .chemical => 0.9
  | .ion => 0.95
  | .nuclear => 0.85

/-- `interceptProbability` transcribed from the spec's words (spec 4.5):
base `0.85`; multiply by `0.7` if `deltaV > 15000`, else `0.85` if
`deltaV > 10000`; multiply by `0.8` if the flight time exceeds 2 years,
else `0.9` if it exceeds 1 year; multiply by the propulsion factor; clamp
the result to `[0.10, 0.99]`.  Used only to compare against the source
definition `calculateInterceptProbability`. -/
noncomputable def interceptProbabilitySpec (deltaV flightTime : ℝ)
    (pt : PropulsionType) : ℝ :=
  let dvFactor : ℝ := if deltaV > 15000 then 0.7
    else if deltaV > 10000 then 0.85 else 1
  let timeFactor : ℝ := if flightTime > 2 * Constants.YEAR_SECONDS then 0.8
    else if flightTime > 1 * Constants.YEAR_SECONDS then 0.9 else 1
  max 0.10 (min 0.99 (0.85 * dvFactor * timeFactor * propulsionFactorSpec pt))

/- ------------------------------------------------------------------
JavaScript runtime level.  TypeScript erases its union types at runtime,
so a `MissionConfig` arriving over the wire can carry any string in
`propulsionType`; and IEEE arithmetic produces non-finite doubles where
`ℝ` has none.  The `Js` definitions below embed those two aspects of the
same source lines.
------------------------------------------------------------------- -/

/-- A JavaScript double: `none` models a non-finite value (the NaN produced
by `0/0` below, and anything downstream of it). -/
abbrev JsNum : Type := Option ℝ

/-- Lifted subtraction: any non-finite operand yields a non-finite result. -/
noncomputable def jsub : JsNum → JsNum → JsNum
  | some a, some b => some (a - b)
  | _, _ => none

/-- Lifted multiplication (non-finite absorbing, as for `NaN`). -/
noncomputable def jmul : JsNum → JsNum → JsNum
  | some a, some b => some (a * b)
  | _, _ => none

/-- Lifted division; division by zero gives a non-finite double
(`0/0 = NaN`, `x/0 = ±Infinity`). -/
noncomputable def jdiv : JsNum → JsNum → JsNum
  | some a, some b => if b = 0 then none else some (a / b)
  | _, _ => none

/-- Lifted `Math.sinh`. -/
noncomputable def jsinh : JsNum → JsNum := Option.map Real.sinh

/-- Lifted `Math.cosh`. -/
noncomputable def jcosh : JsNum → JsNum := Option.map Real.cosh

/-- Lifted `Math.tanh` on a NaN argument (NaN in, NaN out). -/
noncomputable def jtanh : JsNum → JsNum := Option.map Real.tanh

/-- Lifted `Math.atan` on a NaN argument (NaN in, NaN out). -/
noncomputable def jatan : JsNum → JsNum := Option.map Real.arctan

/-- Lifted `Math.sqrt` (negative argument would give NaN; a non-finite
argument stays non-finite). -/
noncomputable def jsqrt : JsNum → JsNum
  | some a => if a < 0 then none else some (Real.sqrt a)
  | none => none

/-- `OrbitalMechanics.solveHyperbolicKepler` at the JavaScript runtime
level.  The loop guard `Math.abs(deltaH) > tolerance` is FALSE when
`deltaH` is NaN, so the loop silently exits and returns the (NaN) iterate:
that is the `| none => some H` case.  The outer `Option` is fuel:
`none` means the loop is still running after `fuel` condition checks. -/
noncomputable def solveHyperbolicKeplerJsAux (M eccentricity tolerance : ℝ) :
    ℕ → JsNum → JsNum → Option JsNum
  | 0, _, _ => none
  | fuel + 1, H, deltaH =>
    match deltaH with
    | none => some H
    | some d =>
      if |d| ≤ tolerance then some H
      else
        let f := jsub (jsub (jmul (some eccentricity) (jsinh H)) H) (some M)
        let df := jsub (jmul (some eccentricity) (jcosh H)) (some 1)
        let dH := jdiv f df
        solveHyperbolicKeplerJsAux M eccentricity tolerance fuel (jsub H dH) dH

/-- `OrbitalMechanics.solveHyperbolicKepler` (JavaScript runtime level,
default tolerance `1e-8`, seed `H = M`, `deltaH = 1`). -/
noncomputable def solveHyperbolicKeplerJs (M eccentricity : ℝ) (fuel : ℕ) :
    Option JsNum :=
  solveHyperbolicKeplerJsAux M eccentricity 1e-8 fuel (some M) (some 1)

/-- `OrbitalMechanics.calculateTrueAnomalyHyperbolic` at the JavaScript
runtime level: `2 * Math.atan(Math.sqrt((e+1)/(e-1)) * Math.tanh(H/2))`. -/
noncomputable def calculateTrueAnomalyHyperbolicJs (H : JsNum) (e : ℝ) : JsNum :=
  jmul (some 2)
    (jatan (jmul (jsqrt (jdiv (some (e + 1)) (some (e - 1))))
      (jtanh (jdiv H (some 2)))))

/-- A runtime mission config: `propulsionType` is a plain string once
TypeScript types are erased. -/
structure MissionConfigJs where
  launchWindow : String
  propulsionType : String
  payload : List String

/-- The `propulsionEfficiency` table looked up by a runtime string key:
`undefined` (here `none`) for any key outside the union. -/
noncomputable def propulsionEfficiencyJs (s : String) : Option Propulsion :=
  if s = "chemical" then some ⟨450, 100000⟩
  else if s = "ion" then some ⟨3000, 100⟩
  else if s = "nuclear" then some ⟨900, 50000⟩
  else none

/-- The `propulsionMultiplier` table looked up by a runtime string key. -/
noncomputable def propulsionMultiplierJs (s : String) : Option ℝ :=
  if s = "chemical" then some 0.9
  else if s = "ion" then some 0.95
  else if s = "nuclear" then some 0.85
  else none

/-- `calculateInterceptProbability` at the JavaScript runtime level:
`baseProbability *= propulsionMultiplier[config.propulsionType]` with an
unknown key multiplies by `undefined`, producing NaN, and
`Math.max(0.1, Math.min(0.99, NaN))` is NaN — modelled as `none`. -/
noncomputable def calculateInterceptProbabilityJs (deltaV timeOfFlight : ℝ)
    (config : MissionConfigJs) : Option ℝ :=
  (propulsionMultiplierJs config.propulsionType).map fun m =>
    max 0.1 (min 0.99 (probabilityBeforePropulsion deltaV timeOfFlight * m))

/-- Errors observable from `calculateInterceptTrajectory` at runtime.
`typeError` is the `TypeError` thrown by reading `propulsion.isp` when the
table lookup returned `undefined` (the `catch` block rethrows it
unchanged).  `invalidMissionConfig` is the failure the spec's taxonomy
prescribes; the source never constructs it — it exists here only so the
claim can be stated. -/
inductive JsError where
  | typeError
  | invalidMissionConfig
deriving DecidableEq

/-- `OrbitalMechanics.calculateInterceptTrajectory` at the JavaScript
runtime level.  For the three valid keys both tables are defined and the
body is the typed one; for any other key, reading `propulsion.isp` throws
a `TypeError`, which the surrounding `try/catch` logs and rethrows. -/
noncomputable def calculateInterceptTrajectoryJs (startPosition targetPosition : Vec3)
    (timeOfFlight : ℝ) (config : MissionConfigJs) (now : ℕ → ℝ) :
    Except JsError InterceptorTrajectory :=
  match propulsionEfficiencyJs config.propulsionType,
        propulsionMultiplierJs config.propulsionType with
  | some propulsion, some mult =>
    let r1 := toMeters startPosition
    let r2 := toMeters targetPosition
    let totalDeltaV := calculateDeltaV r1 r2 timeOfFlight
    let fuelMass := calculateFuelMass totalDeltaV propulsion.isp 1000
    Except.ok ⟨trajectoryPoints r1 r2 timeOfFlight fuelMass now,
      totalDeltaV, fuelMass, timeOfFlight,
      max 0.1 (min 0.99 (probabilityBeforePropulsion totalDeltaV timeOfFlight * mult))⟩
  | _, _ => Except.error JsError.typeError

/-- A concrete valid mission config used by witnesses below. -/
noncomputable def sampleConfigChemical : MissionConfig :=
  ⟨"2025-10-01T00:00:00Z", .chemical, [.camera], none, none, none⟩

/-- A second valid config: same propulsion, every other field different. -/
noncomputable def sampleConfigChemicalB : MissionConfig :=
  ⟨"2030-12-31T12:00:00Z", .chemical, [.probe, .spectrometer],
   some .hohmann, some 5000, some 365⟩

/-- A runtime config whose `propulsionType` is outside the union. -/
noncomputable def warpConfig : MissionConfigJs :=
  ⟨"2025-10-01T00:00:00Z", "warp", ["camera"]⟩

/- ------------------------------------------------------------------
Helper lemmas.
------------------------------------------------------------------- -/

theorem exp_nine_large : (4004 : ℝ) ≤ Real.exp 9 := by
  have h1 : Real.exp 9 = Real.exp 1 ^ 9 := by
    rw [show (9 : ℝ) = ((9 : ℕ) : ℝ) * 1 by norm_num, Real.exp_nat_mul]
  have h2 : (2.7182818283 : ℝ) ^ 9 ≤ Real.exp 1 ^ 9 :=
    pow_le_pow_left₀ (by norm_num) Real.exp_one_gt_d9.le 9
  have h3 : (4004 : ℝ) ≤ (2.7182818283 : ℝ) ^ 9 := by norm_num
  linarith

/-- On `9 ≤ H ≤ 1001` the Newton correction of the hyperbolic solver at
`M = 1000`, `e = 2` lies in `[1/2, 1]`: far above the `1e-8` exit
tolerance, yet advancing `H` by at most `1` per iteration. -/
theorem hypDeltaH_bounds (H : ℝ) (h9 : 9 ≤ H) (hup : H ≤ 1001) :
    1 / 2 ≤ hypDeltaH 1000 2 H ∧ hypDeltaH 1000 2 H ≤ 1 := by
  have hs : (4004 : ℝ) ≤ Real.exp H :=
    le_trans exp_nine_large (Real.exp_le_exp.mpr (by linarith))
  have ht0 : 0 < Real.exp (-H) := Real.exp_pos _
  have ht1 : Real.exp (-H) ≤ 1 := Real.exp_le_one_iff.mpr (by linarith)
  have hsinh : Real.sinh H = (Real.exp H - Real.exp (-H)) / 2 := Real.sinh_eq H
  have hcosh : Real.cosh H = (Real.exp H + Real.exp (-H)) / 2 := Real.cosh_eq H
  have hden : 0 < 2 * Real.cosh H - 1 := by rw [hcosh]; linarith
  unfold hypDeltaH
  constructor
  · rw [le_div_iff₀ hden, hsinh, hcosh]
    linarith
  · rw [div_le_one hden, hsinh, hcosh]
    linarith

/-- With `M = 1000`, `e = 2`, starting anywhere in the invariant region,
the hyperbolic Newton loop is still running after `fuel ≤ 101` more
condition checks. -/
theorem solveHypAux_runs_past (fuel : ℕ) (H d : ℝ) (hfuel : fuel ≤ 101)
    (hlow : 899 + (fuel : ℝ) ≤ H) (hhigh : H ≤ 1000) (hd : 1 / 2 ≤ |d|) :
    solveHyperbolicKeplerAux 1000 2 1e-8 fuel H d = none := by
  induction fuel generalizing H d with
  | zero => rfl
  | succ n ih =>
    have hH9 : 9 ≤ H := by
      have hn : (0 : ℝ) ≤ (n : ℝ) := Nat.cast_nonneg n
      push_cast at hlow
      linarith
    have hδ := hypDeltaH_bounds H hH9 (by linarith)
    simp only [solveHyperbolicKeplerAux]
    rw [if_neg (by intro hc; have h2 : (1 : ℝ) / 2 ≤ 1e-8 := le_trans hd hc; norm_num at h2)]
    apply ih
    · omega
    · push_cast at hlow ⊢
      linarith [hδ.2]
    · linarith [hδ.1]
    · rw [abs_of_nonneg (by linarith [hδ.1])]
      exact hδ.1

theorem vecMag_axis₁ (x : ℝ) (hx : 0 ≤ x) : vecMag (x, 0, 0) = x := by
  simp only [vecMag, mul_zero, zero_mul, add_zero]
  exact Real.sqrt_mul_self hx

theorem vecMag_axis₂ (y : ℝ) (hy : 0 ≤ y) : vecMag (0, y, 0) = y := by
  simp only [vecMag, mul_zero, zero_mul, add_zero, zero_add]
  exact Real.sqrt_mul_self hy

/-- The magnitude of a vector of the shape the ecliptic transform produces
for an in-plane (`i = 0`, `Omega = 0`) orbit at true anomaly `0`. -/
theorem vecMag_rotated_div (w q c : ℝ) (hq : 0 ≤ q) (hc : 0 < c) :
    vecMag (Real.cos w * q / c, Real.sin w * q / c, 0 / c) = q / c := by
  unfold vecMag
  have h : Real.cos w * q / c * (Real.cos w * q / c) +
      Real.sin w * q / c * (Real.sin w * q / c) + 0 / c * (0 / c) =
      (q / c) ^ 2 * (Real.cos w ^ 2 + Real.sin w ^ 2) := by ring
  rw [h, Real.cos_sq_add_sin_sq, mul_one, Real.sqrt_sq (by positivity)]

/-- `calculateDeltaV` is strictly positive whenever the two endpoint radii
are positive and distinct. -/
theorem calculateDeltaV_pos (r1 r2 : Vec3) (tof : ℝ)
    (h1 : 0 < vecMag r1) (h2 : 0 < vecMag r2) (hne : vecMag r1 ≠ vecMag r2) :
    0 < calculateDeltaV r1 r2 tof := by
  have hGM : (0 : ℝ) < Constants.GM_SUN := by norm_num [Constants.GM_SUN]
  simp only [calculateDeltaV]
  apply add_pos_of_pos_of_nonneg _ (abs_nonneg _)
  rw [abs_pos, sub_ne_zero]
  intro heq
  apply hne
  set m1 := vecMag r1 with hm1
  set m2 := vecMag r2 with hm2
  have hsum : 0 < m1 + m2 := by linarith
  have hhalf : (1 : ℝ) / ((m1 + m2) / 2) = 2 / (m1 + m2) := by
    rw [div_div_eq_mul_div, one_mul]
  have hlt : 2 / (m1 + m2) < 2 / m1 :=
    div_lt_div_of_pos_left (by norm_num) h1 (by linarith)
  have harg1 : 0 ≤ Constants.GM_SUN * (2 / m1 - 1 / ((m1 + m2) / 2)) := by
    rw [hhalf]
    exact mul_nonneg hGM.le (by linarith)
  have harg2 : 0 ≤ Constants.GM_SUN / m1 := by positivity
  have hEqArgs := (Real.sqrt_inj harg1 harg2).mp heq
  rw [hhalf] at hEqArgs
  have hGMne : Constants.GM_SUN ≠ 0 := ne_of_gt hGM
  have h3 : 2 / m1 - 2 / (m1 + m2) = 1 / m1 := by
    have h4 : Constants.GM_SUN * (2 / m1 - 2 / (m1 + m2)) =
        Constants.GM_SUN * (1 / m1) := by rw [hEqArgs, mul_one_div]
    exact mul_left_cancel₀ hGMne h4
  have hm1ne : m1 ≠ 0 := ne_of_gt h1
  have hsumne : m1 + m2 ≠ 0 := ne_of_gt hsum
  field_simp at h3
  nlinarith [h3]

theorem solveKeplerAux_exit (M e tol E d : ℝ) (n : ℕ) (h : |d| ≤ tol) :
    solveKeplerAux M e tol (n + 1) E d = some E := by
  rw [solveKeplerAux, if_pos h]

theorem solveKeplerAux_step (M e tol E d : ℝ) (n : ℕ) (h : ¬|d| ≤ tol) :
    solveKeplerAux M e tol (n + 1) E d =
      solveKeplerAux M e tol n (E - kepDeltaE M e E) (kepDeltaE M e E) := by
  rw [solveKeplerAux, if_neg h]

/-- With mean anomaly `0` the elliptical Newton loop exits after one
correction (which is exactly `0`), returning `E = 0`. -/
theorem solveKepler_meanAnomaly_zero (e : ℝ) :
    solveKeplerEquation 0 e 2 = some 0 := by
  unfold solveKeplerEquation
  rw [show (2 : ℕ) = 1 + 1 from rfl,
    solveKeplerAux_step _ _ _ _ _ _ (by norm_num)]
  have h1 : kepDeltaE 0 e 0 = 0 := by simp [kepDeltaE]
  rw [h1, sub_zero, show (1 : ℕ) = 0 + 1 from rfl,
    solveKeplerAux_exit _ _ _ _ _ _ (by norm_num)]

theorem atan2_zero_pos (x : ℝ) (hx : 0 < x) : atan2 0 x = 0 := by
  simp [atan2, hx, Real.arctan_zero]

theorem calculateTrueAnomaly_zero (e : ℝ) (he : e < 1) :
    calculateTrueAnomaly 0 e = 0 := by
  unfold calculateTrueAnomaly
  norm_num [Real.sin_zero, Real.cos_zero]
  rw [atan2_zero_pos _ (Real.sqrt_pos.mpr (by linarith))]

/-- The list of per-point timestamps produced by the trajectory builder:
the clock reading of each loop iteration plus `t * timeOfFlight * 1000`
milliseconds. -/
theorem points_time_map (s t : Vec3) (tof : ℝ) (config : MissionConfig)
    (now : ℕ → ℝ) :
    (calculateInterceptTrajectory s t tof config now).points.map
        TrajectoryPoint.time =
      (List.range 101).map fun i => now i + (i : ℝ) / 100 * tof * 1000 := by
  simp [calculateInterceptTrajectory, trajectoryPoints, List.map_map,
    Function.comp]

/-- The two string-keyed propulsion tables have the same domain. -/
theorem propulsionMultiplierJs_none_of_efficiency_none (s : String)
    (h : propulsionEfficiencyJs s = none) : propulsionMultiplierJs s = none := by
  unfold propulsionEfficiencyJs at h
  unfold propulsionMultiplierJs
  split_ifs at h ⊢ <;> simp_all

/- ------------------------------------------------------------------
Claim theorems.
------------------------------------------------------------------- -/

/-- C1.  The source's Newton–Raphson loops have no iteration cap and no
failure path.  At the in-domain input `M = 1000`, `e = 2` the hyperbolic
solver is still running after 101 loop-condition checks (every computed
correction exceeds the `1e-8` exit tolerance by eight orders of
magnitude), contradicting the claim that the solver either converges
within a bound of 100 iterations or fails with `NumericalDivergence`. -/
theorem solveHyperbolicKepler_exceeds_100_iterations :
    solveHyperbolicKepler 1000 2 101 = none := by
  unfold solveHyperbolicKepler
  exact solveHypAux_runs_past 101 1000 1 le_rfl (by norm_num) (by norm_num)
    (by norm_num)

/-- C8.  `calculateFuelMass` vanishes at `deltaV = 0` and is strictly
increasing in `deltaV` for positive specific impulse and dry mass. -/
theorem calculateFuelMass_zero_and_strictMono (isp dryMass d₁ d₂ : ℝ)
    (hisp : 0 < isp) (hdry : 0 < dryMass) (hlt : d₁ < d₂) :
    calculateFuelMass 0 isp dryMass = 0 ∧
    calculateFuelMass d₁ isp dryMass < calculateFuelMass d₂ isp dryMass := by
  have hve : 0 < isp * 9.81 := mul_pos hisp (by norm_num)
  constructor
  · simp [calculateFuelMass]
  · unfold calculateFuelMass
    have h1 : d₁ / (isp * 9.81) < d₂ / (isp * 9.81) := by gcongr
    have h2 : Real.exp (d₁ / (isp * 9.81)) < Real.exp (d₂ / (isp * 9.81)) :=
      Real.exp_lt_exp.mpr h1
    have h3 := sub_lt_sub_right h2 1
    exact mul_lt_mul_of_pos_left h3 hdry

/-- Witness for C8 at `isp = 450`, `dryMass = 1000`, `deltaV` from 0 to 1. -/
theorem calculateFuelMass_zero_and_strictMono_witness :
    0 < (450 : ℝ) ∧ 0 < (1000 : ℝ) ∧ (0 : ℝ) < 1 ∧
    (calculateFuelMass 0 450 1000 = 0 ∧
     calculateFuelMass 0 450 1000 < calculateFuelMass 1 450 1000) :=
  ⟨by norm_num, by norm_num, by norm_num,
   calculateFuelMass_zero_and_strictMono 450 1000 0 1 (by norm_num) (by norm_num)
     (by norm_num)⟩

/-- C10.  `calculateInterceptProbability` reads nothing from the mission
config except `propulsionType`. -/
theorem interceptProbability_depends_only_on_propulsion
    (deltaV timeOfFlight : ℝ) (c₁ c₂ : MissionConfig)
    (h : c₁.propulsionType = c₂.propulsionType) :
    calculateInterceptProbability deltaV timeOfFlight c₁ =
      calculateInterceptProbability deltaV timeOfFlight c₂ := by
  unfold calculateInterceptProbability
  rw [h]

/-- Witness for C10: two configs sharing only the propulsion type. -/
theorem interceptProbability_depends_only_on_propulsion_witness :
    sampleConfigChemical.propulsionType = sampleConfigChemicalB.propulsionType ∧
    calculateInterceptProbability 5000 86400 sampleConfigChemical =
      calculateInterceptProbability 5000 86400 sampleConfigChemicalB :=
  ⟨rfl, interceptProbability_depends_only_on_propulsion 5000 86400
    sampleConfigChemical sampleConfigChemicalB rfl⟩

/-- C9.  Every one of the 101 trajectory points carries the same velocity
vector: componentwise `(target - start)` in meters, divided by the flight
time, then by 1000 (km/s). -/
theorem trajectory_velocity_constant (startPosition targetPosition : Vec3)
    (timeOfFlight : ℝ) (config : MissionConfig) (now : ℕ → ℝ) :
    (calculateInterceptTrajectory startPosition targetPosition timeOfFlight
        config now).points.map TrajectoryPoint.velocity =
      List.replicate 101
        (((toMeters targetPosition).1 - (toMeters startPosition).1) /
            timeOfFlight / 1000,
         ((toMeters targetPosition).2.1 - (toMeters startPosition).2.1) /
            timeOfFlight / 1000,
         ((toMeters targetPosition).2.2 - (toMeters startPosition).2.2) /
            timeOfFlight / 1000) := by
  refine List.eq_replicate_iff.mpr ⟨?_, ?_⟩
  · simp [calculateInterceptTrajectory, trajectoryPoints]
  · intro p hp
    simp only [calculateInterceptTrajectory, trajectoryPoints, List.mem_map,
      List.mem_range] at hp
    obtain ⟨q, ⟨i, hi, rfl⟩, rfl⟩ := hp
    rfl

/-- C7.  The source probability is exactly the spec's piecewise product
clamped to `[0.10, 0.99]`. -/
theorem calculateInterceptProbability_matches_spec (deltaV timeOfFlight : ℝ)
    (config : MissionConfig) :
    calculateInterceptProbability deltaV timeOfFlight config =
      interceptProbabilitySpec deltaV timeOfFlight config.propulsionType := by
  have hY : (0 : ℝ) < Constants.YEAR_SECONDS := by
    norm_num [Constants.YEAR_SECONDS]
  have e2 : (timeOfFlight > 2 * Constants.YEAR_SECONDS) =
      (timeOfFlight / Constants.YEAR_SECONDS > 2) := by
    rw [eq_iff_iff, gt_iff_lt, gt_iff_lt, lt_div_iff₀ hY]
  have e1 : (timeOfFlight > 1 * Constants.YEAR_SECONDS) =
      (timeOfFlight / Constants.YEAR_SECONDS > 1) := by
    rw [eq_iff_iff, gt_iff_lt, gt_iff_lt, lt_div_iff₀ hY]
  obtain ⟨lw, pt, pl, tt, fc, md⟩ := config
  cases pt <;>
    simp only [calculateInterceptProbability, interceptProbabilitySpec,
      probabilityBeforePropulsion, propulsionMultiplier, propulsionFactorSpec,
      e2, e1] <;>
    split_ifs <;> norm_num

/-- C5 amended.  Modelling each `Date.now()` read as an explicit clock
stream, the builder is a pure function of its arguments and the stream;
everything except the per-point timestamps is independent of the clock,
and point `i`'s timestamp is the `i`-th clock reading plus
`(i/100) * timeOfFlight * 1000` ms — there is no single supplied
reference instant in the source. -/
theorem trajectory_pure_modulo_clock (startPosition targetPosition : Vec3)
    (timeOfFlight : ℝ) (config : MissionConfig) (now₁ now₂ : ℕ → ℝ) :
    (calculateInterceptTrajectory startPosition targetPosition timeOfFlight
        config now₁).totalDeltaV =
      (calculateInterceptTrajectory startPosition targetPosition timeOfFlight
        config now₂).totalDeltaV ∧
    (calculateInterceptTrajectory startPosition targetPosition timeOfFlight
        config now₁).totalFuelUsed =
      (calculateInterceptTrajectory startPosition targetPosition timeOfFlight
        config now₂).totalFuelUsed ∧
    (calculateInterceptTrajectory startPosition targetPosition timeOfFlight
        config now₁).flightTime =
      (calculateInterceptTrajectory startPosition targetPosition timeOfFlight
        config now₂).flightTime ∧
    (calculateInterceptTrajectory startPosition targetPosition timeOfFlight
        config now₁).interceptProbability =
      (calculateInterceptTrajectory startPosition targetPosition timeOfFlight
        config now₂).interceptProbability ∧
    (calculateInterceptTrajectory startPosition targetPosition timeOfFlight
        config now₁).points.map TrajectoryPoint.position =
      (calculateInterceptTrajectory startPosition targetPosition timeOfFlight
        config now₂).points.map TrajectoryPoint.position ∧
    (calculateInterceptTrajectory startPosition targetPosition timeOfFlight
        config now₁).points.map TrajectoryPoint.velocity =
      (calculateInterceptTrajectory startPosition targetPosition timeOfFlight
        config now₂).points.map TrajectoryPoint.velocity ∧
    (calculateInterceptTrajectory startPosition targetPosition timeOfFlight
        config now₁).points.map TrajectoryPoint.fuelMass =
      (calculateInterceptTrajectory startPosition targetPosition timeOfFlight
        config now₂).points.map TrajectoryPoint.fuelMass ∧
    (calculateInterceptTrajectory startPosition targetPosition timeOfFlight
        config now₁).points.map TrajectoryPoint.acceleration =
      (calculateInterceptTrajectory startPosition targetPosition timeOfFlight
        config now₂).points.map TrajectoryPoint.acceleration ∧
    (calculateInterceptTrajectory startPosition targetPosition timeOfFlight
        config now₁).points.map TrajectoryPoint.time =
      (List.range 101).map fun i =>
        now₁ i + (i : ℝ) / 100 * timeOfFlight * 1000 := by
  refine ⟨rfl, rfl, rfl, rfl, ?_, ?_, ?_, ?_, points_time_map _ _ _ _ _⟩ <;>
    simp [calculateInterceptTrajectory, trajectoryPoints, List.map_map,
      Function.comp]

/-- C5 counterexample.  Identical start, target, flight time, config and
first clock reading (the "reference instant"), but a clock that advances
between iterations: the outputs differ, so the output is not a function
of the arguments and a single reference instant. -/
theorem trajectory_clock_dependence_counterexample :
    (fun _ : ℕ => (0 : ℝ)) 0 = (fun n : ℕ => (n : ℝ)) 0 ∧
    calculateInterceptTrajectory (1, 0, 0) (2, 0, 0) 100 sampleConfigChemical
        (fun _ => 0) ≠
      calculateInterceptTrajectory (1, 0, 0) (2, 0, 0) 100 sampleConfigChemical
        (fun n => (n : ℝ)) := by
  refine ⟨by norm_num, fun hEq => ?_⟩
  have h1 := congrArg (fun T => T.points.map TrajectoryPoint.time) hEq
  simp only [points_time_map] at h1
  have h2 := congrArg (fun l => l[1]?) h1
  simp only [List.getElem?_map, List.getElem?_range] at h2
  norm_num at h2

/-- C4 amended.  Every build returns exactly 101 points with linearly
decreasing fuel (`totalFuelUsed * (1 - i/100)`, so full fuel at point 0
and zero at point 100) and zero acceleration; `totalDeltaV` is positive
whenever the two endpoints have distinct positive magnitudes (distinct
positions of equal magnitude give `totalDeltaV = 0`). -/
theorem calculateInterceptTrajectory_points_spec
    (startPosition targetPosition : Vec3) (timeOfFlight : ℝ)
    (config : MissionConfig) (now : ℕ → ℝ) (htof : 0 < timeOfFlight) :
    (calculateInterceptTrajectory startPosition targetPosition timeOfFlight
        config now).points.length = 101 ∧
    (calculateInterceptTrajectory startPosition targetPosition timeOfFlight
        config now).points.map TrajectoryPoint.fuelMass =
      (List.range 101).map (fun (i : ℕ) =>
        (calculateInterceptTrajectory startPosition targetPosition timeOfFlight
          config now).totalFuelUsed * (1 - (i : ℝ) / 100)) ∧
    ((calculateInterceptTrajectory startPosition targetPosition timeOfFlight
        config now).points.map TrajectoryPoint.fuelMass).head? =
      some ((calculateInterceptTrajectory startPosition targetPosition
        timeOfFlight config now).totalFuelUsed) ∧
    ((calculateInterceptTrajectory startPosition targetPosition timeOfFlight
        config now).points.map TrajectoryPoint.fuelMass).getLast? = some 0 ∧
    (calculateInterceptTrajectory startPosition targetPosition timeOfFlight
        config now).points.map TrajectoryPoint.acceleration =
      List.replicate 101 (0, 0, 0) ∧
    (vecMag (toMeters startPosition) ≠ vecMag (toMeters targetPosition) →
      0 < vecMag (toMeters startPosition) →
      0 < vecMag (toMeters targetPosition) →
      0 < (calculateInterceptTrajectory startPosition targetPosition
        timeOfFlight config now).totalDeltaV) := by
  refine ⟨?_, ?_, ?_, ?_, ?_, ?_⟩
  · simp [calculateInterceptTrajectory, trajectoryPoints]
  · simp only [calculateInterceptTrajectory, trajectoryPoints, List.map_map]
    congr 1
  · simp only [calculateInterceptTrajectory, trajectoryPoints]
    rw [show (101 : ℕ) = 100 + 1 from rfl, List.range_succ_eq_map]
    norm_num
  · simp only [calculateInterceptTrajectory, trajectoryPoints]
    rw [show (101 : ℕ) = 100 + 1 from rfl, List.range_succ]
    norm_num [List.getLast?_concat]
  · refine List.eq_replicate_iff.mpr ⟨?_, ?_⟩
    · simp [calculateInterceptTrajectory, trajectoryPoints]
    · intro p hp
      simp only [calculateInterceptTrajectory, trajectoryPoints, List.mem_map,
        List.mem_range] at hp
      obtain ⟨q, ⟨i, hi, rfl⟩, rfl⟩ := hp
      rfl
  · intro hne hp1 hp2
    exact calculateDeltaV_pos (toMeters startPosition) (toMeters targetPosition)
      timeOfFlight hp1 hp2 hne

/-- Witness for C4 at the spec's own example inputs
(`[1,0,0] AU` to `[1.524,0,0] AU`, 200 days). -/
theorem calculateInterceptTrajectory_points_spec_witness :
    0 < (17280000 : ℝ) ∧
    (calculateInterceptTrajectory (1, 0, 0) (1.524, 0, 0) 17280000
      sampleConfigChemical (fun _ => 0)).points.length = 101 :=
  ⟨by norm_num,
   (calculateInterceptTrajectory_points_spec (1, 0, 0) (1.524, 0, 0) 17280000
     sampleConfigChemical (fun _ => 0) (by norm_num)).1⟩

/-- C4 counterexample.  `[1,0,0]` and `[0,1,0]` AU are distinct positions
with equal magnitudes, and the builder returns `totalDeltaV = 0` for them
even with a positive flight time, refuting "for distinct start/target
positions totalDeltaV > 0". -/
theorem trajectory_zero_deltaV_counterexample :
    (((1 : ℝ), (0 : ℝ), (0 : ℝ)) : Vec3) ≠ ((0 : ℝ), (1 : ℝ), (0 : ℝ)) ∧
    (0 : ℝ) < 86400 ∧
    (calculateInterceptTrajectory (1, 0, 0) (0, 1, 0) 86400
      sampleConfigChemical (fun _ => 0)).totalDeltaV = 0 := by
  refine ⟨by norm_num [Prod.ext_iff], by norm_num, ?_⟩
  have hc : (0 : ℝ) < Constants.AU * 1000 := by norm_num [Constants.AU]
  have h1 : vecMag (toMeters (1, 0, 0)) = Constants.AU * 1000 := by
    have ht : toMeters ((1 : ℝ), (0 : ℝ), (0 : ℝ)) =
        (Constants.AU * 1000, 0, 0) := by simp [toMeters]
    rw [ht, vecMag_axis₁ _ hc.le]
  have h2 : vecMag (toMeters (0, 1, 0)) = Constants.AU * 1000 := by
    have ht : toMeters ((0 : ℝ), (1 : ℝ), (0 : ℝ)) =
        (0, Constants.AU * 1000, 0) := by simp [toMeters]
    rw [ht, vecMag_axis₂ _ hc.le]
  show calculateDeltaV (toMeters (1, 0, 0)) (toMeters (0, 1, 0)) 86400 = 0
  simp only [calculateDeltaV, h1, h2]
  have e1 : Constants.GM_SUN * (2 / (Constants.AU * 1000) -
      1 / ((Constants.AU * 1000 + Constants.AU * 1000) / 2)) =
      Constants.GM_SUN / (Constants.AU * 1000) := by ring
  rw [e1]
  simp

/-- C6 amended.  For a runtime config whose `propulsionType` is outside
`{chemical, ion, nuclear}` the engine raises no `InvalidMissionConfig`:
the probability computation silently yields NaN (`none`), and the
trajectory builder throws the `TypeError` from reading `.isp` of an
`undefined` table entry. -/
theorem invalid_propulsion_engine_behavior (startPosition targetPosition : Vec3)
    (timeOfFlight deltaV : ℝ) (config : MissionConfigJs) (now : ℕ → ℝ)
    (h : propulsionEfficiencyJs config.propulsionType = none) :
    calculateInterceptProbabilityJs deltaV timeOfFlight config = none ∧
    calculateInterceptTrajectoryJs startPosition targetPosition timeOfFlight
      config now = Except.error JsError.typeError := by
  have hm := propulsionMultiplierJs_none_of_efficiency_none _ h
  constructor
  · simp [calculateInterceptProbabilityJs, hm]
  · unfold calculateInterceptTrajectoryJs
    rw [h, hm]

/-- Witness for C6's amended theorem at the key `"warp"`. -/
theorem invalid_propulsion_engine_behavior_witness :
    propulsionEfficiencyJs warpConfig.propulsionType = none ∧
    (calculateInterceptProbabilityJs 5000 86400 warpConfig = none ∧
     calculateInterceptTrajectoryJs (1, 0, 0) (1.524, 0, 0) 86400 warpConfig
       (fun _ => 0) = Except.error JsError.typeError) := by
  have h : propulsionEfficiencyJs warpConfig.propulsionType = none := by
    simp [propulsionEfficiencyJs, warpConfig]
  exact ⟨h, invalid_propulsion_engine_behavior (1, 0, 0) (1.524, 0, 0) 86400
    5000 warpConfig (fun _ => 0) h⟩

/-- C6 counterexample.  At `propulsionType = "warp"` the probability is a
silent NaN and the trajectory call fails with `TypeError` — not with
`InvalidMissionConfig`, which the source never raises. -/
theorem invalid_propulsion_counterexample :
    calculateInterceptProbabilityJs 5000 86400 warpConfig = none ∧
    calculateInterceptTrajectoryJs (1, 0, 0) (0, 1, 0) 86400 warpConfig
      (fun _ => 0) = Except.error JsError.typeError ∧
    JsError.typeError ≠ JsError.invalidMissionConfig := by
  refine ⟨?_, ?_, by decide⟩
  · simp [calculateInterceptProbabilityJs, propulsionMultiplierJs, warpConfig]
  · have h : propulsionEfficiencyJs warpConfig.propulsionType = none := by
      simp [propulsionEfficiencyJs, warpConfig]
    have hm := propulsionMultiplierJs_none_of_efficiency_none _ h
    unfold calculateInterceptTrajectoryJs
    rw [h, hm]

theorem solveHypJsAux_nan_exit (M e tol : ℝ) (H : JsNum) (n : ℕ) :
    solveHyperbolicKeplerJsAux M e tol (n + 1) H none = some H := by
  rw [solveHyperbolicKeplerJsAux]

theorem solveHypJsAux_step (M e tol : ℝ) (H : JsNum) (d : ℝ) (n : ℕ)
    (h : ¬|d| ≤ tol) :
    solveHyperbolicKeplerJsAux M e tol (n + 1) H (some d) =
      solveHyperbolicKeplerJsAux M e tol n
        (jsub H (jdiv (jsub (jsub (jmul (some e) (jsinh H)) H) (some M))
          (jsub (jmul (some e) (jcosh H)) (some 1))))
        (jdiv (jsub (jsub (jmul (some e) (jsinh H)) H) (some M))
          (jsub (jmul (some e) (jcosh H)) (some 1))) := by
  simp only [solveHyperbolicKeplerJsAux]
  rw [if_neg h]

/-- C3.  At the parabolic eccentricity `e = 1` (reached by the `e ≥ 1`
branch of `calculatePositionAtTime`, e.g. a body evaluated at its own
epoch, so mean anomaly `0`): the hyperbolic solver's first Newton
correction is the NaN `0/0`, the loop guard is then false and the loop
silently returns a non-finite `H`, and the true-anomaly conversion
silently propagates it (its `e - 1` denominator is itself `0`).  Nothing
fails with `UnsupportedOrbitType` — the source has no such failure path,
its return type carries numbers only. -/
theorem parabolic_orbit_silent_nan :
    solveHyperbolicKeplerJs 0 1 2 = some none ∧
    calculateTrueAnomalyHyperbolicJs none 1 = none := by
  constructor
  · show solveHyperbolicKeplerJsAux 0 1 1e-8 2 (some 0) (some 1) = some none
    rw [show (2 : ℕ) = 1 + 1 from rfl,
      solveHypJsAux_step 0 1 1e-8 (some 0) 1 1 (by norm_num)]
    have hf : jsub (jsub (jmul (some (1 : ℝ)) (jsinh (some 0))) (some 0))
        (some 0) = some 0 := by norm_num [jsub, jmul, jsinh]
    have hdf : jsub (jmul (some (1 : ℝ)) (jcosh (some 0))) (some 1) = some 0 := by
      norm_num [jsub, jmul, jcosh]
    rw [hf, hdf]
    have hdiv : jdiv (some (0 : ℝ)) (some 0) = none := by simp [jdiv]
    rw [hdiv]
    have hsub : jsub (some (0 : ℝ)) none = none := by simp [jsub]
    rw [hsub, show (1 : ℕ) = 0 + 1 from rfl, solveHypJsAux_nan_exit]
  · norm_num [calculateTrueAnomalyHyperbolicJs, jmul, jdiv, jsqrt, jtanh, jatan]

theorem earth_pipeline_eq :
    calculatePositionAtTime EarthElements 2451545 2 =
      some (eclipticStateOf EarthElements 0) := by
  simp only [calculatePositionAtTime]
  rw [if_pos (show EarthElements.e < 1 by norm_num [EarthElements])]
  rw [show ((2451545 : ℝ) - EarthElements.epoch) * Constants.DAY_SECONDS = 0 by
    norm_num [EarthElements, Constants.DAY_SECONDS]]
  rw [mul_zero, solveKepler_meanAnomaly_zero]
  simp only [Option.map_some']
  rw [calculateTrueAnomaly_zero EarthElements.e (by norm_num [EarthElements])]

theorem earth_position_components :
    (eclipticStateOf EarthElements 0).1 =
      (Real.cos (114.2 * (Real.pi / 180)) *
         ((1 : ℝ) * (1 - 0.017 * 0.017) / (1 + 0.017)) / Constants.AU,
       Real.sin (114.2 * (Real.pi / 180)) *
         ((1 : ℝ) * (1 - 0.017 * 0.017) / (1 + 0.017)) / Constants.AU,
       0 / Constants.AU) := by
  simp only [eclipticStateOf, orbitalStateVectors, transformToEcliptic,
    degToRad, EarthElements]
  norm_num [Real.cos_zero, Real.sin_zero, Prod.ext_iff]

/-- C2.  Evaluating the state-vector pipeline for Earth's registered
elements at Earth's own epoch JD 2451545.0 yields a position of magnitude
below `1e-6` — not `1.0 ± 0.02` as claimed.  `orbitalStateVectors` builds
`r` from `a` in AU, so its coordinates are already AU-valued, yet
`calculatePositionAtTime` divides them by `Constants.AU` again ("convert
to AU"): a unit slip of eight orders of magnitude. -/
theorem earth_position_at_epoch_magnitude_bug :
    (calculatePositionAtTime EarthElements 2451545 2).elim False fun sv =>
      vecMag sv.1 < 1e-6 ∧ 0.02 < |vecMag sv.1 - 1| := by
  rw [earth_pipeline_eq]
  show vecMag (eclipticStateOf EarthElements 0).1 < 1e-6 ∧
      0.02 < |vecMag (eclipticStateOf EarthElements 0).1 - 1|
  rw [earth_position_components,
    vecMag_rotated_div _ _ _ (by norm_num) (by norm_num [Constants.AU])]
  constructor
  · norm_num [Constants.AU]
  · rw [abs_of_neg (by norm_num [Constants.AU])]
    norm_num [Constants.AU]

end AIMS
